import Mathlib

/-!
# cboxauthd: startup wiring of the authentication daemon

A shallow embedding of `main.go`: the configuration registry that `init`
fills (viper defaults and command-line flags), the start-up sequence of
`main`, `getHTTPLoggerOut` and `showVersion`, together with the part of the
router that `main` uses.  Library calls whose result depends on the machine
(reading the configuration file, building the logger, opening a file,
parsing an integer literal) are fields of `World`.
-/

namespace Cboxauthd

/-! ## Configuration values and the viper registry -/

/-- A configuration value: the shapes that the flags and defaults of `init` use. -/
inductive Value where
  | int (n : Int)
  | str (s : String)
  | bool (b : Bool)
  deriving DecidableEq, Repr

/-- Association-list lookup by key (first binding wins). -/
def lookupKey : String → List (String × Value) → Option Value
  | _, [] => none
  | k, (k', v) :: rest => if k = k' then some v else lookupKey k rest

/-- The viper registry as far as `main.go` uses it: `SetDefault` values, the
flags bound with `BindPFlags` (name and default), the flags changed on the
command line, the configuration file chosen with `SetConfigFile` and the
contents read by `ReadInConfig`. -/
structure Viper where
  defaults : List (String × Value)
  pflags : List (String × Value)
  changed : List (String × Value)
  configFile : Option String
  config : List (String × Value)

/-- Lookup order of viper for the sources used here: a flag changed on the
command line, then the configuration file, then the `SetDefault` value, and
as a last resort the default of a bound flag. -/
def Viper.find (v : Viper) (key : String) : Option Value :=
  match lookupKey key v.changed with
  | some x => some x
  | none =>
    match lookupKey key v.config with
    | some x => some x
    | none =>
      match lookupKey key v.defaults with
      | some x => some x
      | none => lookupKey key v.pflags

/-- The `cast.ToString` conversion on the value shapes of the registry. -/
def castToString : Option Value → String
  | some (.str s) => s
  | some (.int n) => toString n
  | some (.bool true) => "true"
  | some (.bool false) => "false"
  | none => ""

/-- The `cast.ToInt` conversion; `parseInt` is `strconv.ParseInt(s, 0, 0)`, and a
string that does not parse gives 0. -/
def castToInt (parseInt : String → Option Int) : Option Value → Int
  | some (.int n) => n
  | some (.str s) => (parseInt s).getD 0
  | some (.bool true) => 1
  | some (.bool false) => 0
  | none => 0

/-- The `viper.GetString` accessor. -/
def Viper.GetString (v : Viper) (key : String) : String :=
  castToString (v.find key)

/-- The `viper.GetInt` accessor. -/
def Viper.GetInt (v : Viper) (parseInt : String → Option Int) (key : String) : Int :=
  castToInt parseInt (v.find key)

/-! ## `init` -/

/-- The `viper.SetDefault` calls of `init`, in source order. -/
def viperDefaults : List (String × Value) :=
  [ ("port", .int 2020),
    ("ldaphostname", .str "cerndc.cern.ch"),
    ("ldapport", .int 636),
    ("ldapbindusername", .str "testuser"),
    ("ldapbindpassword", .str "testpassword"),
    ("ldapbasedn", .str "OU=Users,OU=Organic Units,DC=cern,DC=ch"),
    ("ldapfilter", .str "(samaccountname=%s)"),
    ("signingkey", .str "change me!!!"),
    ("applog", .str "stderr"),
    ("httplog", .str "stderr"),
    ("expiretime", .int 3600),
    ("owncloudcookiename", .str "oc_sessionpassphrase"),
    ("loglevel", .str "info") ]

/-- The flag definitions of `init` with their defaults, in source order. -/
def flagDefaults : List (String × Value) :=
  [ ("version", .bool false),
    ("port", .int 2020),
    ("ldaphostname", .str "cerndc.cern.ch"),
    ("ldapport", .int 636),
    ("ldapbindusername", .str "CERN\\testuser"),
    ("ldapbindpassword", .str "testpassword"),
    ("ldapbasedn", .str "OU=Users,OU=Organic Units,DC=cern,DC=ch"),
    ("ldapfilter", .str "(samaccountname=%s)"),
    ("signingkey", .str "change me!!!"),
    ("applog", .str "stderr"),
    ("httplog", .str "stderr"),
    ("config", .str ""),
    ("expiretime", .int 3600),
    ("owncloudcookiename", .str "oc_sessionpassphrase"),
    ("loglevel", .str "info") ]

/-- Package-level state after `init`: the `fVersion` variable and the registry. -/
structure Globals where
  fVersion : Bool
  viper : Viper

/-- The `init` function. `args` are the flags that `pflag.Parse` found on the
command line, with their parsed values. `fVersion` is the variable bound to the
`version` flag (default false). -/
def init (args : List (String × Value)) : Globals :=
  { fVersion :=
      match lookupKey "version" args with
      | some (.bool b) => b
      | _ => false
    viper :=
      { defaults := viperDefaults
        pflags := flagDefaults
        changed := args
        configFile := none
        config := [] } }

/-! ## Effects and outcomes -/

/-- The `zapcore.Level` values. -/
inductive Level where
  | Debug | Info | Warn | Error | DPanic | Panic | Fatal
  deriving DecidableEq, Repr

/-- The logger built from `zap.NewProductionConfig` with the level and output
paths set by `main`. -/
structure Logger where
  level : Level
  outputPaths : List String
  deriving DecidableEq, Repr

/-- An `*os.File`: one of the two standard streams, or a file that `os.OpenFile`
returned. -/
inductive File where
  | Stderr
  | Stdout
  | opened (fd : Nat)
  deriving DecidableEq, Repr

/-- The value returned by `ldapuserbackend.New`, represented by the arguments of
the call (the package is not among the sources). -/
structure LdapBackend where
  hostname : String
  port : Int
  baseDN : String
  filter : String
  bindUsername : String
  bindPassword : String
  deriving DecidableEq, Repr

/-- The externally visible actions of the program, in the order they happen. -/
inductive Effect where
  | printf (s : String)
  | setConfigFile (file : String)
  | readInConfig (file : Option String)
  | buildLogger (level : Level) (outputPaths : List String)
  | newRouter
  | ldapNew (ub : LdapBackend)
  | checkAuth (signingKey : String) (expireTime : Int) (cookieName : String)
  | handle (path : String) (methods : List String)
  | openFile (name : String) (flag : Nat) (perm : Nat)
  | logFatal (err : String)
  | loggerInfo (msg : String) (port : Int)
  | listenAndServe (addr : String)
  deriving DecidableEq, Repr

/-- How a function ends: it returns a value, the process exits (`os.Exit`), or
it panics. -/
inductive Outcome (α : Type) where
  | ret (a : α)
  | exit (code : Nat)
  | panic (msg : String)
  deriving DecidableEq, Repr

/-- A run of a function: the effects performed and how it ended. -/
structure Run (α : Type) where
  trace : List Effect
  outcome : Outcome α
  deriving DecidableEq, Repr

/-- Results of the library calls that depend on the machine the daemon runs on. -/
structure World where
  /-- The `strconv.ParseInt(s, 0, 0)` call used by `cast.ToInt`. -/
  parseInt : String → Option Int
  /-- The `viper.ReadInConfig` call: the keys of the configuration file (the one
  set with `SetConfigFile`, else `cboxauthd.*` under `/etc/cboxauthd/`), or an error. -/
  readInConfig : Option String → Except String (List (String × Value))
  /-- The `zapcore.Level.UnmarshalText` call. -/
  unmarshalLevel : String → Except String Level
  /-- The error of `zap.Config.Build` for a level and output paths, if any. -/
  buildLoggerErr : Level → List String → Option String
  /-- The `os.OpenFile` call. -/
  openFile : String → Nat → Nat → Except String File

/-! ## `showVersion` and `getHTTPLoggerOut` -/

/-- Build information set with `-ldflags`. -/
structure BuildInfo where
  appName : String
  buildDate : String
  gitTag : String
  gitNearestTag : String
  gitCommit : String

/-- The `showVersion` function: prints one line and exits with status 0. -/
def showVersion {α : Type} (b : BuildInfo) : Run α :=
  if b.gitTag ≠ "" then
    { trace := [.printf (b.appName ++ " " ++ b.gitNearestTag ++ " commit:" ++ b.gitCommit ++ " release-build\n")]
      outcome := .exit 0 }
  else
    { trace := [.printf (b.appName ++ " " ++ b.gitNearestTag ++ " commit:" ++ b.gitCommit ++ " dev-build\n")]
      outcome := .exit 0 }

/-- The `os.O_WRONLY` constant. -/
def O_WRONLY : Nat := 0x1

/-- The `os.O_CREATE` constant (Linux). -/
def O_CREATE : Nat := 0x40

/-- The `os.O_APPEND` constant (Linux). -/
def O_APPEND : Nat := 0x400

/-- The `getHTTPLoggerOut` function. `log.Fatal` prints the error and exits with
status 1. -/
def getHTTPLoggerOut (w : World) (filename : String) : Run File :=
  if filename = "stderr" then
    { trace := [], outcome := .ret .Stderr }
  else if filename = "stdout" then
    { trace := [], outcome := .ret .Stdout }
  else
    match w.openFile filename (O_CREATE ||| O_APPEND ||| O_WRONLY) 0o644 with
    | .error err =>
      { trace := [.openFile filename (O_CREATE ||| O_APPEND ||| O_WRONLY) 0o644, .logFatal err]
        outcome := .exit 1 }
    | .ok fd =>
      { trace := [.openFile filename (O_CREATE ||| O_APPEND ||| O_WRONLY) 0o644]
        outcome := .ret fd }

/-! ## The router (the part of `gorilla/mux` that `main` uses) -/

/-- The handler value returned by `handlers.CheckAuth`: its constructor arguments. -/
structure AuthHandler where
  logger : Logger
  ub : LdapBackend
  signingKey : String
  expireTime : Int
  cookieName : String
  deriving DecidableEq, Repr

/-- An incoming request: method, URL path (`req.URL.Path`, which is `*` for the
request target `*`), and the credentials that can be extracted from it (none:
the field is missing). -/
structure Request where
  method : String
  path : String
  username : Option String
  password : Option String
  deriving DecidableEq, Repr

/-- A route: a path template without variables, an optional method matcher and
the handler. -/
structure Route where
  path : String
  methods : Option (List String)
  handler : AuthHandler
  deriving DecidableEq, Repr

/-- A router: its routes in registration order. -/
structure Router where
  routes : List Route
  deriving DecidableEq, Repr

/-- The `mux.NewRouter` constructor. -/
def NewRouter : Router := { routes := [] }

/-- The `Route.Methods` call: installs a method matcher; the names are upper-cased. -/
def Route.Methods (rt : Route) (methods : List String) : Route :=
  { rt with methods := some (methods.map fun m => String.mk (m.data.map Char.toUpper)) }

/-- The `router.Handle(path, handler).Methods(methods...)` chain: appends a route
with a path matcher and a method matcher. -/
def Router.HandleMethods (r : Router) (path : String) (h : AuthHandler) (methods : List String) : Router :=
  { routes := r.routes ++ [Route.Methods { path := path, methods := none, handler := h } methods] }

/-- Result of matching one route against a request. -/
inductive RouteMatch where
  | matched (h : AuthHandler)
  | methodMismatch
  | noMatch
  deriving DecidableEq, Repr

/-- The `Route.Match` method: the path matcher is tried first and a failure ends
the match; a failing method matcher records a method mismatch. -/
def Route.Match (rt : Route) (req : Request) : RouteMatch :=
  if req.path = rt.path then
    match rt.methods with
    | none => .matched rt.handler
    | some ms => if req.method ∈ ms then .matched rt.handler else .methodMismatch
  else .noMatch

/-- Where the router sends a request. -/
inductive Dispatch where
  | handler (h : AuthHandler)
  | methodNotAllowed
  | notFound
  deriving DecidableEq, Repr

/-- The route loop of `Router.Match`: the first matching route wins; `mismatch`
remembers that some route failed on the method only. -/
def matchRoutes (req : Request) : List Route → Bool → Dispatch
  | [], mismatch => if mismatch then .methodNotAllowed else .notFound
  | rt :: rest, mismatch =>
    match rt.Match req with
    | .matched h => .handler h
    | .methodMismatch => matchRoutes req rest true
    | .noMatch => matchRoutes req rest mismatch

/-- The `Router.Match` method. -/
def Router.Match (r : Router) (req : Request) : Dispatch :=
  matchRoutes req r.routes false

/-! ## `main` -/

/-- The server that `main` hands to `http.ListenAndServe`: the address, the
router, and the output of the request log. -/
structure Server where
  addr : String
  router : Router
  out : File
  deriving DecidableEq, Repr

/-- The registry after lines 76-78 of `main`: `SetConfigFile` is called when the
`config` setting is not empty. -/
def viperAtRead (args : List (String × Value)) : Viper :=
  let v := (init args).viper
  if v.GetString "config" ≠ "" then { v with configFile := some (v.GetString "config") } else v

/-- The registry after a successful `ReadInConfig` that found the keys `cfg`. -/
def viperLoaded (args : List (String × Value)) (cfg : List (String × Value)) : Viper :=
  { viperAtRead args with config := cfg }

/-- The effects of lines 76-80 of `main`: `SetConfigFile` when a file was
chosen, then `ReadInConfig`. -/
def readEffects (v : Viper) : List Effect :=
  (match v.configFile with
    | some f => [.setConfigFile f]
    | none => []) ++ [.readInConfig v.configFile]

/-- The `main` function. The run ends with `ret s` when `main` calls
`http.ListenAndServe` for the server `s`. -/
def main (b : BuildInfo) (w : World) (args : List (String × Value)) : Run Server :=
  if (init args).fVersion then showVersion b
  else
    let t0 := readEffects (viperAtRead args)
    match w.readInConfig (viperAtRead args).configFile with
    | .error err => { trace := t0, outcome := .panic ("Fatal error config file: " ++ err ++ " \n") }
    | .ok cfg =>
      let v := viperLoaded args cfg
      match w.unmarshalLevel (v.GetString "loglevel") with
      | .error err => { trace := t0, outcome := .panic err }
      | .ok logLevel =>
        let t1 := t0 ++ [.buildLogger logLevel [v.GetString "applog"]]
        match w.buildLoggerErr logLevel [v.GetString "applog"] with
        | some err => { trace := t1, outcome := .panic err }
        | none =>
          let logger : Logger := { level := logLevel, outputPaths := [v.GetString "applog"] }
          let ub : LdapBackend :=
            { hostname := v.GetString "ldaphostname"
              port := v.GetInt w.parseInt "ldapport"
              baseDN := v.GetString "ldapbasedn"
              filter := v.GetString "ldapfilter"
              bindUsername := v.GetString "ldapbindusername"
              bindPassword := v.GetString "ldapbindpassword" }
          let authHandler : AuthHandler :=
            { logger := logger
              ub := ub
              signingKey := v.GetString "signingkey"
              expireTime := v.GetInt w.parseInt "expiretime"
              cookieName := v.GetString "owncloudcookiename" }
          let router := NewRouter.HandleMethods "/api/v1/auth" authHandler ["GET"]
          let t2 := t1 ++
            [ .newRouter, .ldapNew ub,
              .checkAuth authHandler.signingKey authHandler.expireTime authHandler.cookieName,
              .handle "/api/v1/auth" ["GET"] ]
          let o := getHTTPLoggerOut w (v.GetString "httplog")
          match o.outcome with
          | .exit code => { trace := t2 ++ o.trace, outcome := .exit code }
          | .panic msg => { trace := t2 ++ o.trace, outcome := .panic msg }
          | .ret out =>
            let addr := ":" ++ toString (v.GetInt w.parseInt "port")
            { trace := t2 ++ o.trace ++
                [ .loggerInfo "server is listening" (v.GetInt w.parseInt "port"),
                  .listenAndServe addr ]
              outcome := .ret { addr := addr, router := router, out := out } }

/-- The handler that `main` builds from the loaded registry. -/
def builtHandler (w : World) (v : Viper) (lvl : Level) : AuthHandler :=
  { logger := { level := lvl, outputPaths := [v.GetString "applog"] }
    ub :=
      { hostname := v.GetString "ldaphostname"
        port := v.GetInt w.parseInt "ldapport"
        baseDN := v.GetString "ldapbasedn"
        filter := v.GetString "ldapfilter"
        bindUsername := v.GetString "ldapbindusername"
        bindPassword := v.GetString "ldapbindpassword" }
    signingKey := v.GetString "signingkey"
    expireTime := v.GetInt w.parseInt "expiretime"
    cookieName := v.GetString "owncloudcookiename" }

/-! ## The auth handler and request serving -/

/-- Modelled from the spec: the `AuthResult` of the data model, the result of
`UserBackend.Authenticate` (the backend package is not among the sources). -/
inductive AuthResult where
  | Authenticated
  | Denied
  | BackendError (detail : String)
  deriving DecidableEq, Repr

/-- Modelled from the spec: the claim set of a `SessionToken`. -/
structure SessionToken where
  subject : String
  issuedAt : Int
  expiresAt : Int
  deriving DecidableEq, Repr

/-- Modelled from the spec: a session token signed with the signing key. -/
structure SignedToken where
  claims : SessionToken
  key : String
  deriving DecidableEq, Repr

/-- Modelled from the spec: the session cookie of a success response. -/
structure Cookie where
  name : String
  value : SignedToken
  expires : Int
  httpOnly : Bool
  secure : Bool
  deriving DecidableEq, Repr

/-- Modelled from the spec: an HTTP response of the handler: status, the token in
the body (none: no token) and the cookie set (none: no `Set-Cookie`). The two
remaining fields are only set by the router: `redirectPath` is the path of the
`Location` URL of a redirect (the request URL with this path in place of its
own), and `text` is the plain-text body (empty: nothing written). -/
structure Response where
  status : Nat
  body : Option SignedToken
  cookie : Option Cookie
  redirectPath : Option String := none
  text : String := ""
  deriving DecidableEq, Repr

/-- The answer to one request together with the calls made to the user backend. -/
structure Served where
  response : Response
  backendCalls : List (String × String)
  deriving DecidableEq, Repr

/-- Modelled from the spec: the `handlers` package (`handlers.CheckAuth`) is not
among the sources. The handler extracts the credentials; without a username or a
password it rejects without calling the backend; otherwise it calls
`Authenticate`, and only on `Authenticated` issues a token with subject the
username, issuedAt `now` and expiresAt `now` plus the TTL, signed with the
signing key, returned in the body and in a cookie with the configured name that
expires with the token; any other result is answered 401 with an empty body and
no cookie. -/
def handlers.CheckAuth (authenticate : String → String → AuthResult) (signingKey : String)
    (expireTime : Int) (cookieName : String) (now : Int) (req : Request) : Served :=
  match req.username, req.password with
  | some u, some p =>
    match authenticate u p with
    | .Authenticated =>
      let token : SessionToken := { subject := u, issuedAt := now, expiresAt := now + expireTime }
      let signed : SignedToken := { claims := token, key := signingKey }
      { response :=
          { status := 200
            body := some signed
            cookie := some
              { name := cookieName, value := signed, expires := token.expiresAt,
                httpOnly := true, secure := true } }
        backendCalls := [(u, p)] }
    | _ => { response := { status := 401, body := none, cookie := none }, backendCalls := [(u, p)] }
  | _, _ => { response := { status := 401, body := none, cookie := none }, backendCalls := [] }

/-- Splits a path at every `/`. -/
def splitSlash : List Char → List (List Char)
  | [] => [[]]
  | c :: cs =>
    match splitSlash cs with
    | [] => [[]]
    | seg :: rest => if c = '/' then [] :: seg :: rest else (c :: seg) :: rest

/-- The element rules of `path.Clean` on a rooted path: empty elements and `.`
are dropped, `..` removes the element before it (and is dropped at the root).
`acc` holds the elements kept so far, last one first. -/
def cleanSegments : List (List Char) → List (List Char) → List (List Char)
  | [], acc => acc.reverse
  | seg :: rest, acc =>
    if seg = [] ∨ seg = ['.'] then cleanSegments rest acc
    else if seg = ['.', '.'] then cleanSegments rest acc.tail
    else cleanSegments rest (seg :: acc)

/-- The `path.Clean` function on a rooted path (one that starts with `/`). -/
def pathClean (p : List Char) : List Char :=
  '/' :: List.intercalate ['/'] (cleanSegments (splitSlash p) [])

/-- The `cleanPath` function of the router: the empty path becomes `/`, a path is
made rooted, cleaned with `path.Clean`, and a trailing slash is put back. -/
def cleanPath (p : String) : String :=
  if p = "" then "/"
  else
    let q : List Char := if p.data.head? = some '/' then p.data else '/' :: p.data
    let np := pathClean q
    if q.getLast? = some '/' ∧ np ≠ ['/'] then String.mk (np ++ ['/']) else String.mk np

/-- Serving one request with the server that `main` starts; `authenticate` is the
`Authenticate` capability of the LDAP backend and `now` the clock reading. The
HTTP server answers `OPTIONS *` itself (200, nothing written). Every other
request goes through the logging handler to `Router.ServeHTTP`: a path that is
not in its clean form is answered 301 with the clean path as the redirect
target; otherwise the router picks the handler, a method mismatch is answered
405 with an empty body, and no route is answered by `http.NotFound` (404 with
the text `404 page not found`). -/
def Server.ServeHTTP (authenticate : LdapBackend → String → String → AuthResult)
    (s : Server) (now : Int) (req : Request) : Served :=
  if req.method = "OPTIONS" ∧ req.path = "*" then
    { response := { status := 200, body := none, cookie := none }, backendCalls := [] }
  else if cleanPath req.path ≠ req.path then
    { response :=
        { status := 301, body := none, cookie := none, redirectPath := some (cleanPath req.path) }
      backendCalls := [] }
  else
    match s.router.Match req with
    | .handler h =>
      handlers.CheckAuth (authenticate h.ub) h.signingKey h.expireTime h.cookieName now req
    | .methodNotAllowed =>
      { response := { status := 405, body := none, cookie := none }, backendCalls := [] }
    | .notFound =>
      { response := { status := 404, body := none, cookie := none, text := "404 page not found\n" }
        backendCalls := [] }

/-- Where a finished start-up sends a request, if `main` reached serving. -/
def Run.dispatch (r : Run Server) (req : Request) : Option Dispatch :=
  match r.outcome with
  | .ret s => some (s.router.Match req)
  | _ => none

/-! ## A sample machine for concrete runs -/

/-- A machine on which an empty configuration file is found, the level `info`
parses, the logger builds and every file opens. -/
def sampleWorld : World :=
  { parseInt := fun _ => none
    readInConfig := fun _ => .ok []
    unmarshalLevel := fun s => if s = "info" then .ok .Info else .error "unrecognized level"
    buildLoggerErr := fun _ _ => none
    openFile := fun _ _ _ => .ok (.opened 3) }

/-- A machine like `sampleWorld` on which no file can be opened. -/
def readOnlyWorld : World :=
  { sampleWorld with openFile := fun _ _ _ => .error "permission denied" }

/-- A development build (no exact tag). -/
def sampleBuild : BuildInfo :=
  { appName := "cboxauthd", buildDate := "", gitTag := "", gitNearestTag := "v1.0.0", gitCommit := "abc" }

/-- A stub backend that authenticates alice with the password correct, and fails
with a backend error for the user bob. -/
def stubBackend (_ : LdapBackend) (u p : String) : AuthResult :=
  if u = "alice" ∧ p = "correct" then .Authenticated
  else if u = "bob" then .BackendError "connection refused"
  else .Denied

/-- The server that `main` starts on `sampleWorld` without any flag. -/
def sampleServer : Server :=
  { addr := ":2020"
    router :=
      { routes :=
          [ { path := "/api/v1/auth"
              methods := some ["GET"]
              handler :=
                { logger := { level := .Info, outputPaths := ["stderr"] }
                  ub :=
                    { hostname := "cerndc.cern.ch", port := 636
                      baseDN := "OU=Users,OU=Organic Units,DC=cern,DC=ch"
                      filter := "(samaccountname=%s)"
                      bindUsername := "testuser", bindPassword := "testpassword" }
                  signingKey := "change me!!!"
                  expireTime := 3600
                  cookieName := "oc_sessionpassphrase" } } ] }
    out := .Stderr }

/-! ## Facts about the start-up sequence -/

theorem getHTTPLoggerOut_trace_cases (w : World) (filename : String) (e : Effect)
    (he : e ∈ (getHTTPLoggerOut w filename).trace) :
    (∃ n fl p, e = .openFile n fl p) ∨ ∃ err, e = .logFatal err := by
  unfold getHTTPLoggerOut at he
  split_ifs at he with h1 h2
  · simp at he
  · simp at he
  · split at he
    · simp at he
      rcases he with rfl | rfl
      · exact Or.inl ⟨_, _, _, rfl⟩
      · exact Or.inr ⟨_, rfl⟩
    · simp at he
      subst he
      exact Or.inl ⟨_, _, _, rfl⟩

theorem showVersion_outcome {α : Type} (b : BuildInfo) :
    (showVersion b : Run α).outcome = .exit 0 := by
  unfold showVersion
  split_ifs <;> rfl

/-- When the steps before the router succeed, `main` constructs the handler
from the loaded registry. -/
theorem main_constructs (b : BuildInfo) (w : World) (args cfg : List (String × Value)) (lvl : Level)
    (hv : (init args).fVersion = false)
    (hr : w.readInConfig (viperAtRead args).configFile = .ok cfg)
    (hl : w.unmarshalLevel ((viperLoaded args cfg).GetString "loglevel") = .ok lvl)
    (hb : w.buildLoggerErr lvl [(viperLoaded args cfg).GetString "applog"] = none) :
    Effect.checkAuth ((viperLoaded args cfg).GetString "signingkey")
        ((viperLoaded args cfg).GetInt w.parseInt "expiretime")
        ((viperLoaded args cfg).GetString "owncloudcookiename") ∈ (main b w args).trace := by
  unfold main
  simp only [hv, hr, hl, hb]
  cases ho : (getHTTPLoggerOut w ((viperLoaded args cfg).GetString "httplog")).outcome <;> simp

/-- When all steps succeed, `main` serves the single-route router. -/
theorem main_serves (b : BuildInfo) (w : World) (args cfg : List (String × Value)) (lvl : Level)
    (out : File)
    (hv : (init args).fVersion = false)
    (hr : w.readInConfig (viperAtRead args).configFile = .ok cfg)
    (hl : w.unmarshalLevel ((viperLoaded args cfg).GetString "loglevel") = .ok lvl)
    (hb : w.buildLoggerErr lvl [(viperLoaded args cfg).GetString "applog"] = none)
    (ho : (getHTTPLoggerOut w ((viperLoaded args cfg).GetString "httplog")).outcome = .ret out) :
    (main b w args).outcome = .ret
        { addr := ":" ++ toString ((viperLoaded args cfg).GetInt w.parseInt "port")
          router := NewRouter.HandleMethods "/api/v1/auth" (builtHandler w (viperLoaded args cfg) lvl) ["GET"]
          out := out } ∧
      Effect.listenAndServe (":" ++ toString ((viperLoaded args cfg).GetInt w.parseInt "port"))
        ∈ (main b w args).trace := by
  unfold main
  simp only [hv, hr, hl, hb, ho, builtHandler]
  simp

/-- If `main` reaches serving, every earlier step succeeded and the server is
the single-route router with the handler built from the loaded registry. -/
theorem main_ret_inv (b : BuildInfo) (w : World) (args : List (String × Value)) (s : Server)
    (h : (main b w args).outcome = .ret s) :
    ∃ cfg lvl out,
      (init args).fVersion = false ∧
      w.readInConfig (viperAtRead args).configFile = .ok cfg ∧
      w.unmarshalLevel ((viperLoaded args cfg).GetString "loglevel") = .ok lvl ∧
      w.buildLoggerErr lvl [(viperLoaded args cfg).GetString "applog"] = none ∧
      (getHTTPLoggerOut w ((viperLoaded args cfg).GetString "httplog")).outcome = .ret out ∧
      s = { addr := ":" ++ toString ((viperLoaded args cfg).GetInt w.parseInt "port")
            router := NewRouter.HandleMethods "/api/v1/auth" (builtHandler w (viperLoaded args cfg) lvl) ["GET"]
            out := out } := by
  unfold main at h
  cases hv : (init args).fVersion with
  | true => simp [hv, showVersion_outcome] at h
  | false =>
    cases hr : w.readInConfig (viperAtRead args).configFile with
    | error err => simp [hv, hr] at h
    | ok cfg =>
      cases hl : w.unmarshalLevel ((viperLoaded args cfg).GetString "loglevel") with
      | error err => simp [hv, hr, hl] at h
      | ok lvl =>
        cases hb : w.buildLoggerErr lvl [(viperLoaded args cfg).GetString "applog"] with
        | some err => simp [hv, hr, hl, hb] at h
        | none =>
          cases ho : (getHTTPLoggerOut w ((viperLoaded args cfg).GetString "httplog")).outcome with
          | exit code => simp [hv, hr, hl, hb, ho] at h
          | panic msg => simp [hv, hr, hl, hb, ho] at h
          | ret out =>
            simp only [hv, hr, hl, hb, ho] at h
            simp only [Bool.false_eq_true, if_false, Outcome.ret.injEq] at h
            exact ⟨cfg, lvl, out, rfl, rfl, hl, hb, ho, h.symm⟩

theorem readEffects_cases (v : Viper) (e : Effect) (he : e ∈ readEffects v) :
    (∃ f, e = .setConfigFile f) ∨ ∃ f, e = .readInConfig f := by
  unfold readEffects at he
  cases h : v.configFile with
  | none =>
    simp [h] at he
    exact Or.inr ⟨_, he⟩
  | some f =>
    simp [h] at he
    rcases he with rfl | rfl
    · exact Or.inl ⟨_, rfl⟩
    · exact Or.inr ⟨_, rfl⟩

/-- Every construction of the handler in a run of `main` takes its arguments
from the loaded registry. -/
theorem main_checkAuth_inv (b : BuildInfo) (w : World) (args : List (String × Value))
    (k : String) (t : Int) (c : String)
    (h : Effect.checkAuth k t c ∈ (main b w args).trace) :
    ∃ cfg,
      w.readInConfig (viperAtRead args).configFile = .ok cfg ∧
      k = (viperLoaded args cfg).GetString "signingkey" ∧
      t = (viperLoaded args cfg).GetInt w.parseInt "expiretime" ∧
      c = (viperLoaded args cfg).GetString "owncloudcookiename" := by
  have hlog : ∀ f, Effect.checkAuth k t c ∉ (getHTTPLoggerOut w f).trace := by
    intro f hf
    rcases getHTTPLoggerOut_trace_cases w f _ hf with ⟨_, _, _, h1⟩ | ⟨_, h1⟩ <;> cases h1
  have ht0 : Effect.checkAuth k t c ∉ readEffects (viperAtRead args) := by
    intro hf
    rcases readEffects_cases _ _ hf with ⟨_, h1⟩ | ⟨_, h1⟩ <;> cases h1
  unfold main at h
  cases hv : (init args).fVersion with
  | true =>
    simp only [hv, if_true] at h
    unfold showVersion at h
    split_ifs at h <;> simp at h
  | false =>
    cases hr : w.readInConfig (viperAtRead args).configFile with
    | error err =>
      simp [hv, hr] at h
      exact absurd h ht0
    | ok cfg =>
      refine ⟨cfg, rfl, ?_⟩
      cases hl : w.unmarshalLevel ((viperLoaded args cfg).GetString "loglevel") with
      | error err =>
        simp [hv, hr, hl] at h
        exact absurd h ht0
      | ok lvl =>
        cases hb : w.buildLoggerErr lvl [(viperLoaded args cfg).GetString "applog"] with
        | some err =>
          simp [hv, hr, hl, hb] at h
          exact absurd h ht0
        | none =>
          have h1 := hlog ((viperLoaded args cfg).GetString "httplog")
          cases ho : (getHTTPLoggerOut w ((viperLoaded args cfg).GetString "httplog")).outcome with
          | exit code =>
            simp [hv, hr, hl, hb, ho, ht0, h1] at h
            exact h
          | panic msg =>
            simp [hv, hr, hl, hb, ho, ht0, h1] at h
            exact h
          | ret out =>
            simp [hv, hr, hl, hb, ho, ht0, h1] at h
            exact h

theorem viperLoaded_find (args cfg : List (String × Value)) (key : String) :
    (viperLoaded args cfg).find key =
      match lookupKey key args with
      | some x => some x
      | none =>
        match lookupKey key cfg with
        | some x => some x
        | none =>
          match lookupKey key viperDefaults with
          | some x => some x
          | none => lookupKey key flagDefaults := by
  simp only [viperLoaded, viperAtRead]
  split_ifs <;> rfl

/-- A key that neither a flag nor the configuration file overrides resolves to
its `SetDefault` value. -/
theorem viperLoaded_find_default (args cfg : List (String × Value)) (key : String) (d : Value)
    (ha : lookupKey key args = none) (hc : lookupKey key cfg = none)
    (hd : lookupKey key viperDefaults = some d) :
    (viperLoaded args cfg).find key = some d := by
  rw [viperLoaded_find, ha, hc, hd]

/-- The router that `main` builds: one route, path `/api/v1/auth`, methods GET. -/
theorem single_route_router (hd : AuthHandler) :
    NewRouter.HandleMethods "/api/v1/auth" hd ["GET"] =
      { routes := [{ path := "/api/v1/auth", methods := some ["GET"], handler := hd }] } := by
  rfl

/-- The route that `main` registers, matched against a request to its path. -/
theorem single_route_match (hd : AuthHandler) (req : Request) (hp : req.path = "/api/v1/auth") :
    (NewRouter.HandleMethods "/api/v1/auth" hd ["GET"]).Match req =
      if req.method = "GET" then .handler hd else .methodNotAllowed := by
  rw [single_route_router]
  simp only [Router.Match, matchRoutes, Route.Match, hp, if_true, List.mem_singleton]
  split_ifs <;> rfl

/-- On the auth path with method GET the server runs the auth handler: the path
is in clean form and the request is not `OPTIONS *`. -/
theorem serve_on_auth_route (auth : LdapBackend → String → String → AuthResult) (addr : String)
    (hd : AuthHandler) (out : File) (now : Int) (req : Request)
    (hp : req.path = "/api/v1/auth") (hm : req.method = "GET") :
    Server.ServeHTTP auth
        { addr := addr, router := NewRouter.HandleMethods "/api/v1/auth" hd ["GET"], out := out } now req =
      handlers.CheckAuth (auth hd.ub) hd.signingKey hd.expireTime hd.cookieName now req := by
  have hmatch := single_route_match hd req hp
  rw [if_pos hm] at hmatch
  have hclean : cleanPath req.path = req.path := by
    rw [hp]
    decide
  have hopt : ¬ (req.method = "OPTIONS" ∧ req.path = "*") := by
    rw [hp]
    intro h
    exact absurd h.2 (by decide)
  simp only [Server.ServeHTTP, hopt, hclean, hmatch, if_false, ne_eq, not_true_eq_false]

/-- The auth handler on a request without a username or without a password. -/
theorem checkAuth_missing (authenticate : String → String → AuthResult) (signingKey : String)
    (expireTime : Int) (cookieName : String) (now : Int) (req : Request)
    (hmiss : req.username = none ∨ req.password = none) :
    handlers.CheckAuth authenticate signingKey expireTime cookieName now req =
      { response := { status := 401, body := none, cookie := none }, backendCalls := [] } := by
  unfold handlers.CheckAuth
  rcases hmiss with hn | hn
  · rw [hn]
  · rw [hn]
    cases req.username <;> rfl

/-- Whatever the router, a request without a username or without a password is
served without a backend call, a token or a cookie. -/
theorem serve_missing_no_call (auth : LdapBackend → String → String → AuthResult) (s : Server)
    (now : Int) (req : Request) (hmiss : req.username = none ∨ req.password = none) :
    (s.ServeHTTP auth now req).backendCalls = [] ∧
    (s.ServeHTTP auth now req).response.body = none ∧
    (s.ServeHTTP auth now req).response.cookie = none := by
  unfold Server.ServeHTTP
  split_ifs
  · exact ⟨rfl, rfl, rfl⟩
  · exact ⟨rfl, rfl, rfl⟩
  · cases s.router.Match req with
    | handler hd =>
      simp only [checkAuth_missing _ _ _ _ _ _ hmiss, and_self]
    | methodNotAllowed => exact ⟨rfl, rfl, rfl⟩
    | notFound => exact ⟨rfl, rfl, rfl⟩

/-- Requests that do not reach the auth handler on the sample server: a path that
is not clean is redirected to its clean form, an unknown path gets the 404 text,
another method on the auth path gets 405, and `OPTIONS *` is answered 200. -/
theorem serve_off_route_examples :
    (sampleServer.ServeHTTP stubBackend 1000
        { method := "GET", path := "/api/v1//auth", username := none, password := none }).response =
      { status := 301, body := none, cookie := none, redirectPath := some "/api/v1/auth" } ∧
    (sampleServer.ServeHTTP stubBackend 1000
        { method := "GET", path := "/api/v1/auth/", username := none, password := none }).response =
      { status := 404, body := none, cookie := none, text := "404 page not found\n" } ∧
    (sampleServer.ServeHTTP stubBackend 1000
        { method := "POST", path := "/api/v1/auth", username := none, password := none }).response =
      { status := 405, body := none, cookie := none } ∧
    (sampleServer.ServeHTTP stubBackend 1000
        { method := "OPTIONS", path := "*", username := none, password := none }).response =
      { status := 200, body := none, cookie := none } := by
  decide

/-! ## C1: the route and its method matcher -/

/-- C1 (as stated, refuted): on the sample machine `main` reaches serving, and a
POST request to `/api/v1/auth` is not dispatched to the auth handler: the method
matcher rejects it. -/
theorem C1_post_not_dispatched :
    (main sampleBuild sampleWorld []).dispatch
        { method := "POST", path := "/api/v1/auth", username := some "alice", password := some "correct" }
      = some .methodNotAllowed := by
  decide

/-- C1 (amended): the router that `main` serves has exactly one route, for the
path `/api/v1/auth` with the method matcher GET; a request to that path is
dispatched to the auth handler when its method is GET, and is rejected by the
method matcher for every other method (POST included). -/
theorem C1_route_get_only (b : BuildInfo) (w : World) (args : List (String × Value)) (s : Server)
    (req : Request) (h : (main b w args).outcome = .ret s) (hp : req.path = "/api/v1/auth") :
    ∃ hd, s.router.routes = [{ path := "/api/v1/auth", methods := some ["GET"], handler := hd }] ∧
      Effect.checkAuth hd.signingKey hd.expireTime hd.cookieName ∈ (main b w args).trace ∧
      s.router.Match req = if req.method = "GET" then .handler hd else .methodNotAllowed := by
  obtain ⟨cfg, lvl, out, hv, hr, hl, hb, ho, rfl⟩ := main_ret_inv b w args s h
  refine ⟨builtHandler w (viperLoaded args cfg) lvl, ?_, ?_, ?_⟩
  · rw [single_route_router]
  · exact main_constructs b w args cfg lvl hv hr hl hb
  · exact single_route_match _ req hp

/-- C1 (amended), at the sample run: a GET request is dispatched. -/
theorem C1_route_get_only_witness :
    (main sampleBuild sampleWorld []).outcome = .ret sampleServer ∧
    ∃ hd, sampleServer.router.routes = [{ path := "/api/v1/auth", methods := some ["GET"], handler := hd }] ∧
      Effect.checkAuth hd.signingKey hd.expireTime hd.cookieName ∈ (main sampleBuild sampleWorld []).trace ∧
      sampleServer.router.Match { method := "GET", path := "/api/v1/auth", username := none, password := none } =
        if "GET" = "GET" then .handler hd else .methodNotAllowed :=
  ⟨by decide,
   C1_route_get_only sampleBuild sampleWorld [] sampleServer
     { method := "GET", path := "/api/v1/auth", username := none, password := none } (by decide) rfl⟩

/-! ## C2: the signing key is not checked -/

/-- C2 (as stated, refuted): with the default signing key, and with an empty one,
`main` constructs the auth handler with that key and starts listening. -/
theorem C2_default_key_served :
    (viperLoaded [] []).GetString "signingkey" = "change me!!!" ∧
    Effect.checkAuth "change me!!!" 3600 "oc_sessionpassphrase" ∈ (main sampleBuild sampleWorld []).trace ∧
    Effect.listenAndServe ":2020" ∈ (main sampleBuild sampleWorld []).trace ∧
    (viperLoaded [("signingkey", .str "")] []).GetString "signingkey" = "" ∧
    Effect.checkAuth "" 3600 "oc_sessionpassphrase" ∈
      (main sampleBuild sampleWorld [("signingkey", .str "")]).trace ∧
    Effect.listenAndServe ":2020" ∈ (main sampleBuild sampleWorld [("signingkey", .str "")]).trace := by
  decide

/-- C2 (amended): `main` makes no check of the signing key. Whenever the version
flag is unset, the configuration file is read, the log level parses, the logger
builds and the request-log output is available, `main` constructs the auth
handler with the configured signing key, whatever its value, installs that
handler as the single route `/api/v1/auth` (methods GET) of the router it
serves, so that a GET request to that path is dispatched to it, and starts
listening on the server's address. -/
theorem C2_key_passed_unchecked (b : BuildInfo) (w : World) (args cfg : List (String × Value))
    (lvl : Level) (out : File)
    (hv : (init args).fVersion = false)
    (hr : w.readInConfig (viperAtRead args).configFile = .ok cfg)
    (hl : w.unmarshalLevel ((viperLoaded args cfg).GetString "loglevel") = .ok lvl)
    (hb : w.buildLoggerErr lvl [(viperLoaded args cfg).GetString "applog"] = none)
    (ho : (getHTTPLoggerOut w ((viperLoaded args cfg).GetString "httplog")).outcome = .ret out) :
    ∃ hd s,
      hd.signingKey = (viperLoaded args cfg).GetString "signingkey" ∧
      Effect.checkAuth hd.signingKey hd.expireTime hd.cookieName ∈ (main b w args).trace ∧
      (main b w args).outcome = .ret s ∧
      s.router.routes = [{ path := "/api/v1/auth", methods := some ["GET"], handler := hd }] ∧
      (∀ req : Request, req.path = "/api/v1/auth" → req.method = "GET" →
        s.router.Match req = .handler hd) ∧
      Effect.listenAndServe s.addr ∈ (main b w args).trace := by
  obtain ⟨hout, hlisten⟩ := main_serves b w args cfg lvl out hv hr hl hb ho
  refine ⟨builtHandler w (viperLoaded args cfg) lvl, _, rfl,
    main_constructs b w args cfg lvl hv hr hl hb, hout, ?_, ?_, hlisten⟩
  · rw [single_route_router]
  · intro req hp hm
    have hmatch := single_route_match (builtHandler w (viperLoaded args cfg) lvl) req hp
    rw [if_pos hm] at hmatch
    exact hmatch

/-- C2 (amended), at the sample run with the default key. -/
theorem C2_key_passed_unchecked_witness :
    (viperLoaded [] []).GetString "signingkey" = "change me!!!" ∧
    ∃ hd s,
      hd.signingKey = (viperLoaded [] []).GetString "signingkey" ∧
      Effect.checkAuth hd.signingKey hd.expireTime hd.cookieName ∈ (main sampleBuild sampleWorld []).trace ∧
      (main sampleBuild sampleWorld []).outcome = .ret s ∧
      s.router.routes = [{ path := "/api/v1/auth", methods := some ["GET"], handler := hd }] ∧
      (∀ req : Request, req.path = "/api/v1/auth" → req.method = "GET" →
        s.router.Match req = .handler hd) ∧
      Effect.listenAndServe s.addr ∈ (main sampleBuild sampleWorld []).trace :=
  ⟨by decide,
   C2_key_passed_unchecked sampleBuild sampleWorld [] [] .Info .Stderr
     (by decide) rfl rfl rfl (by decide)⟩

/-! ## C3: the TTL is not validated -/

/-- C3 (as stated, refuted): with `expiretime` set to 0, or to -5, `main`
constructs the auth handler with that TTL, which is not strictly positive. -/
theorem C3_nonpositive_ttl_passed :
    Effect.checkAuth "change me!!!" 0 "oc_sessionpassphrase" ∈
      (main sampleBuild sampleWorld [("expiretime", .int 0)]).trace ∧
    Effect.checkAuth "change me!!!" (-5) "oc_sessionpassphrase" ∈
      (main sampleBuild sampleWorld [("expiretime", .int (-5))]).trace ∧
    ¬ ((0 : Int) < 0) ∧ ¬ ((0 : Int) < -5) := by
  decide

/-- C3 (amended): whenever `main` constructs the auth handler, the TTL it passes
is the configured integer `expiretime`, unvalidated; when neither a flag nor the
configuration file overrides `expiretime`, it is 3600 and hence strictly
positive. -/
theorem C3_ttl_is_configured (b : BuildInfo) (w : World) (args : List (String × Value))
    (k : String) (t : Int) (c : String)
    (h : Effect.checkAuth k t c ∈ (main b w args).trace) :
    ∃ cfg, w.readInConfig (viperAtRead args).configFile = .ok cfg ∧
      t = (viperLoaded args cfg).GetInt w.parseInt "expiretime" ∧
      (lookupKey "expiretime" args = none → lookupKey "expiretime" cfg = none → t = 3600 ∧ 0 < t) := by
  obtain ⟨cfg, hr, -, ht, -⟩ := main_checkAuth_inv b w args k t c h
  refine ⟨cfg, hr, ht, ?_⟩
  intro ha hc
  have hf := viperLoaded_find_default args cfg "expiretime" (.int 3600) ha hc (by decide)
  have : t = 3600 := by
    rw [ht]
    simp only [Viper.GetInt, hf, castToInt]
  subst this
  exact ⟨rfl, by decide⟩

/-- C3 (amended), at the sample run: the default TTL 3600 is passed. -/
theorem C3_ttl_is_configured_witness :
    Effect.checkAuth "change me!!!" 3600 "oc_sessionpassphrase" ∈ (main sampleBuild sampleWorld []).trace ∧
    ∃ cfg, sampleWorld.readInConfig (viperAtRead []).configFile = .ok cfg ∧
      (3600 : Int) = (viperLoaded [] cfg).GetInt sampleWorld.parseInt "expiretime" ∧
      (lookupKey "expiretime" [] = none → lookupKey "expiretime" cfg = none →
        (3600 : Int) = 3600 ∧ (0 : Int) < 3600) :=
  ⟨by decide,
   C3_ttl_is_configured sampleBuild sampleWorld [] "change me!!!" 3600 "oc_sessionpassphrase" (by decide)⟩

/-! ## C4: the constructor arguments -/

/-- C4: whenever `main` gets as far as the router (version flag unset,
configuration file read, log level parsed, logger built), it calls
`handlers.CheckAuth` with signing key = `signingkey`, TTL = `expiretime` and
cookie name = `owncloudcookiename` of the loaded configuration, in that order, and
with nothing else; when the cookie name is not overridden it is
`oc_sessionpassphrase`, and when the TTL is not overridden it is 3600. -/
theorem C4_constructor_arguments (b : BuildInfo) (w : World) (args cfg : List (String × Value))
    (lvl : Level)
    (hv : (init args).fVersion = false)
    (hr : w.readInConfig (viperAtRead args).configFile = .ok cfg)
    (hl : w.unmarshalLevel ((viperLoaded args cfg).GetString "loglevel") = .ok lvl)
    (hb : w.buildLoggerErr lvl [(viperLoaded args cfg).GetString "applog"] = none) :
    Effect.checkAuth ((viperLoaded args cfg).GetString "signingkey")
        ((viperLoaded args cfg).GetInt w.parseInt "expiretime")
        ((viperLoaded args cfg).GetString "owncloudcookiename") ∈ (main b w args).trace ∧
    (∀ k t c, Effect.checkAuth k t c ∈ (main b w args).trace →
      k = (viperLoaded args cfg).GetString "signingkey" ∧
      t = (viperLoaded args cfg).GetInt w.parseInt "expiretime" ∧
      c = (viperLoaded args cfg).GetString "owncloudcookiename") ∧
    (lookupKey "owncloudcookiename" args = none → lookupKey "owncloudcookiename" cfg = none →
      (viperLoaded args cfg).GetString "owncloudcookiename" = "oc_sessionpassphrase") ∧
    (lookupKey "expiretime" args = none → lookupKey "expiretime" cfg = none →
      (viperLoaded args cfg).GetInt w.parseInt "expiretime" = 3600) := by
  refine ⟨main_constructs b w args cfg lvl hv hr hl hb, ?_, ?_, ?_⟩
  · intro k t c h
    obtain ⟨cfg', hr', hk, ht, hc⟩ := main_checkAuth_inv b w args k t c h
    rw [hr] at hr'
    cases hr'
    exact ⟨hk, ht, hc⟩
  · intro ha hc
    have hf := viperLoaded_find_default args cfg "owncloudcookiename"
      (.str "oc_sessionpassphrase") ha hc (by decide)
    simp only [Viper.GetString, hf, castToString]
  · intro ha hc
    have hf := viperLoaded_find_default args cfg "expiretime" (.int 3600) ha hc (by decide)
    simp only [Viper.GetInt, hf, castToInt]

/-- C4, at a run whose configuration file sets the signing key and whose
command line sets the cookie name. -/
theorem C4_constructor_arguments_witness :
    Effect.checkAuth "s3cret" 3600 "sid" ∈
      (main sampleBuild { sampleWorld with readInConfig := fun _ => .ok [("signingkey", .str "s3cret")] }
        [("owncloudcookiename", .str "sid")]).trace ∧
    (Effect.checkAuth
        ((viperLoaded [("owncloudcookiename", .str "sid")] [("signingkey", .str "s3cret")]).GetString "signingkey")
        ((viperLoaded [("owncloudcookiename", .str "sid")] [("signingkey", .str "s3cret")]).GetInt
          (fun _ => none) "expiretime")
        ((viperLoaded [("owncloudcookiename", .str "sid")] [("signingkey", .str "s3cret")]).GetString
          "owncloudcookiename") ∈
      (main sampleBuild { sampleWorld with readInConfig := fun _ => .ok [("signingkey", .str "s3cret")] }
        [("owncloudcookiename", .str "sid")]).trace) :=
  ⟨by decide,
   (C4_constructor_arguments sampleBuild
      { sampleWorld with readInConfig := fun _ => .ok [("signingkey", .str "s3cret")] }
      [("owncloudcookiename", .str "sid")] [("signingkey", .str "s3cret")] .Info
      (by decide) rfl rfl rfl).1⟩

/-! ## C5, C6, C7: the handler installed on the route -/

/-- C5: for a GET request to the auth route that carries a username and a
password, if the backend answers anything other than Authenticated, the response
is 401 with an empty body and no cookie; the response is the same whichever
non-Authenticated answer the backend gives (Denied or a backend error). -/
theorem C5_fail_closed (b : BuildInfo) (w : World) (args : List (String × Value)) (s : Server)
    (auth : LdapBackend → String → String → AuthResult) (now : Int) (req : Request) (u p : String)
    (h : (main b w args).outcome = .ret s)
    (hp : req.path = "/api/v1/auth") (hm : req.method = "GET")
    (hu : req.username = some u) (hpw : req.password = some p)
    (hden : ∀ hd, s.router.Match req = .handler hd → auth hd.ub u p ≠ .Authenticated) :
    (s.ServeHTTP auth now req).response = { status := 401, body := none, cookie := none } ∧
    ∀ auth2 : LdapBackend → String → String → AuthResult,
      (∀ hd, s.router.Match req = .handler hd → auth2 hd.ub u p ≠ .Authenticated) →
      (s.ServeHTTP auth2 now req).response = (s.ServeHTTP auth now req).response := by
  obtain ⟨cfg, lvl, out, -, -, -, -, -, rfl⟩ := main_ret_inv b w args s h
  have hmatch := single_route_match (builtHandler w (viperLoaded args cfg) lvl) req hp
  rw [if_pos hm] at hmatch
  have key : ∀ a : LdapBackend → String → String → AuthResult,
      (∀ hd, (NewRouter.HandleMethods "/api/v1/auth" (builtHandler w (viperLoaded args cfg) lvl)
          ["GET"]).Match req = .handler hd → a hd.ub u p ≠ .Authenticated) →
      (Server.ServeHTTP a
        { addr := ":" ++ toString ((viperLoaded args cfg).GetInt w.parseInt "port")
          router := NewRouter.HandleMethods "/api/v1/auth" (builtHandler w (viperLoaded args cfg) lvl) ["GET"]
          out := out } now req).response = { status := 401, body := none, cookie := none } := by
    intro a ha
    have hne := ha _ hmatch
    cases hres : a (builtHandler w (viperLoaded args cfg) lvl).ub u p with
    | Authenticated => exact absurd hres hne
    | Denied =>
      rw [serve_on_auth_route a _ _ _ now req hp hm]
      simp only [handlers.CheckAuth, hu, hpw, hres]
    | BackendError d =>
      rw [serve_on_auth_route a _ _ _ now req hp hm]
      simp only [handlers.CheckAuth, hu, hpw, hres]
  refine ⟨key auth hden, ?_⟩
  intro auth2 h2
  rw [key auth hden, key auth2 h2]

/-- C5, at the sample server with the stub backend: a wrong password for alice. -/
theorem C5_fail_closed_witness :
    (main sampleBuild sampleWorld []).outcome = .ret sampleServer ∧
    sampleServer.router.routes.map (fun rt => stubBackend rt.handler.ub "alice" "wrong") = [.Denied] ∧
    ((sampleServer.ServeHTTP stubBackend 1000
        { method := "GET", path := "/api/v1/auth", username := some "alice", password := some "wrong" }).response
        = { status := 401, body := none, cookie := none } ∧
      ∀ auth2 : LdapBackend → String → String → AuthResult,
        (∀ hd, sampleServer.router.Match
            { method := "GET", path := "/api/v1/auth", username := some "alice", password := some "wrong" }
            = .handler hd → auth2 hd.ub "alice" "wrong" ≠ .Authenticated) →
        (sampleServer.ServeHTTP auth2 1000
          { method := "GET", path := "/api/v1/auth", username := some "alice", password := some "wrong" }).response
        = (sampleServer.ServeHTTP stubBackend 1000
          { method := "GET", path := "/api/v1/auth", username := some "alice", password := some "wrong" }).response) :=
  ⟨by decide, by decide,
   C5_fail_closed sampleBuild sampleWorld [] sampleServer stubBackend 1000
     { method := "GET", path := "/api/v1/auth", username := some "alice", password := some "wrong" }
     "alice" "wrong" (by decide) rfl rfl rfl rfl (fun _ _ => by simp [stubBackend])⟩

/-- C6: for a GET request to the auth route whose credentials the backend
reports as Authenticated, the handler constructed in `main` answers 200 with a
token whose subject is the username, whose issuedAt is the clock reading and
whose expiresAt minus issuedAt is exactly the TTL passed to the constructor; the
token is signed with the constructor's key and also set as the cookie with the
constructor's cookie name, expiring with the token. -/
theorem C6_token_subject_and_ttl (b : BuildInfo) (w : World) (args : List (String × Value))
    (s : Server) (k : String) (ttl : Int) (c : String)
    (auth : LdapBackend → String → String → AuthResult) (now : Int) (req : Request) (u p : String)
    (h : (main b w args).outcome = .ret s)
    (hk : Effect.checkAuth k ttl c ∈ (main b w args).trace)
    (hp : req.path = "/api/v1/auth") (hm : req.method = "GET")
    (hu : req.username = some u) (hpw : req.password = some p)
    (hok : ∀ hd, s.router.Match req = .handler hd → auth hd.ub u p = .Authenticated) :
    ∃ tok : SignedToken,
      (s.ServeHTTP auth now req).response.status = 200 ∧
      (s.ServeHTTP auth now req).response.body = some tok ∧
      tok.claims.subject = u ∧
      tok.claims.issuedAt = now ∧
      tok.claims.expiresAt - tok.claims.issuedAt = ttl ∧
      tok.key = k ∧
      (s.ServeHTTP auth now req).response.cookie =
        some { name := c, value := tok, expires := tok.claims.expiresAt, httpOnly := true, secure := true } ∧
      (s.ServeHTTP auth now req).backendCalls = [(u, p)] := by
  obtain ⟨cfg, lvl, out, -, hr, -, -, -, rfl⟩ := main_ret_inv b w args s h
  obtain ⟨cfg', hr', rfl, rfl, rfl⟩ := main_checkAuth_inv b w args k ttl c hk
  rw [hr] at hr'
  cases hr'
  have hmatch := single_route_match (builtHandler w (viperLoaded args cfg) lvl) req hp
  rw [if_pos hm] at hmatch
  have hres := hok _ hmatch
  refine ⟨{ claims := { subject := u, issuedAt := now,
                        expiresAt := now + (viperLoaded args cfg).GetInt w.parseInt "expiretime" },
            key := (viperLoaded args cfg).GetString "signingkey" }, ?_⟩
  rw [serve_on_auth_route auth _ _ _ now req hp hm]
  simp only [handlers.CheckAuth, hu, hpw, hres]
  simp only [builtHandler, add_sub_cancel_left, and_self]

/-- C6, at the sample server: TTL 3600 and clock reading 1000 give expiresAt 4600. -/
theorem C6_token_subject_and_ttl_witness :
    (sampleServer.ServeHTTP stubBackend 1000
        { method := "GET", path := "/api/v1/auth", username := some "alice", password := some "correct" }).response.body
      = some { claims := { subject := "alice", issuedAt := 1000, expiresAt := 4600 }, key := "change me!!!" } ∧
    ∃ tok : SignedToken,
      (sampleServer.ServeHTTP stubBackend 1000
        { method := "GET", path := "/api/v1/auth", username := some "alice", password := some "correct" }).response.status = 200 ∧
      (sampleServer.ServeHTTP stubBackend 1000
        { method := "GET", path := "/api/v1/auth", username := some "alice", password := some "correct" }).response.body = some tok ∧
      tok.claims.subject = "alice" ∧
      tok.claims.issuedAt = 1000 ∧
      tok.claims.expiresAt - tok.claims.issuedAt = 3600 ∧
      tok.key = "change me!!!" ∧
      (sampleServer.ServeHTTP stubBackend 1000
        { method := "GET", path := "/api/v1/auth", username := some "alice", password := some "correct" }).response.cookie =
        some { name := "oc_sessionpassphrase", value := tok, expires := tok.claims.expiresAt,
               httpOnly := true, secure := true } ∧
      (sampleServer.ServeHTTP stubBackend 1000
        { method := "GET", path := "/api/v1/auth", username := some "alice", password := some "correct" }).backendCalls
        = [("alice", "correct")] :=
  ⟨by decide,
   C6_token_subject_and_ttl sampleBuild sampleWorld [] sampleServer "change me!!!" 3600
     "oc_sessionpassphrase" stubBackend 1000
     { method := "GET", path := "/api/v1/auth", username := some "alice", password := some "correct" }
     "alice" "correct" (by decide) (by decide) rfl rfl rfl rfl (fun _ _ => by simp [stubBackend])⟩

/-- C7: a request from which a username or a password cannot be extracted never
leads to a call to the user backend and never gets a token or a cookie, whatever
its path and method; when it reaches the auth handler (method GET on the auth
path) the handler answers with the rejection, status 401 with an empty body,
and the list of backend calls is empty. -/
theorem C7_missing_credentials_rejected (b : BuildInfo) (w : World) (args : List (String × Value))
    (s : Server) (auth : LdapBackend → String → String → AuthResult) (now : Int) (req : Request)
    (h : (main b w args).outcome = .ret s)
    (hmiss : req.username = none ∨ req.password = none) :
    (s.ServeHTTP auth now req).backendCalls = [] ∧
    (s.ServeHTTP auth now req).response.body = none ∧
    (s.ServeHTTP auth now req).response.cookie = none ∧
    (req.path = "/api/v1/auth" → req.method = "GET" →
      s.ServeHTTP auth now req =
        { response := { status := 401, body := none, cookie := none }, backendCalls := [] }) := by
  obtain ⟨hcalls, hbody, hcookie⟩ := serve_missing_no_call auth s now req hmiss
  refine ⟨hcalls, hbody, hcookie, ?_⟩
  intro hp hm
  obtain ⟨cfg, lvl, out, -, -, -, -, -, rfl⟩ := main_ret_inv b w args s h
  rw [serve_on_auth_route auth _ _ _ now req hp hm]
  exact checkAuth_missing _ _ _ _ _ _ hmiss

/-- C7, at the sample server: a request without a password is rejected with 401
and no backend call. -/
theorem C7_missing_credentials_rejected_witness :
    (main sampleBuild sampleWorld []).outcome = .ret sampleServer ∧
    sampleServer.ServeHTTP stubBackend 1000
        { method := "GET", path := "/api/v1/auth", username := some "alice", password := none }
      = { response := { status := 401, body := none, cookie := none }, backendCalls := [] } :=
  ⟨by decide,
   (C7_missing_credentials_rejected sampleBuild sampleWorld [] sampleServer stubBackend 1000
     { method := "GET", path := "/api/v1/auth", username := some "alice", password := none }
     (by decide) (Or.inr rfl)).2.2.2 rfl rfl⟩

/-! ## C8: the two default tables -/

/-- C8 (code defect): the key `ldapbindusername` has the viper default `testuser`
but the flag default `CERN\testuser`; the remaining twelve keys that have both
defaults agree. With nothing overridden the registry resolves the key to the
viper default, not to the default the flag announces. -/
theorem C8_ldapbindusername_defaults_differ :
    lookupKey "ldapbindusername" viperDefaults = some (.str "testuser") ∧
    lookupKey "ldapbindusername" flagDefaults = some (.str "CERN\\testuser") ∧
    lookupKey "ldapbindusername" viperDefaults ≠ lookupKey "ldapbindusername" flagDefaults ∧
    (∀ key ∈ ["port", "ldaphostname", "ldapport", "ldapbindpassword", "ldapbasedn", "ldapfilter",
        "signingkey", "applog", "httplog", "expiretime", "owncloudcookiename", "loglevel"],
      lookupKey key viperDefaults = lookupKey key flagDefaults ∧
      (lookupKey key viperDefaults).isSome = true) ∧
    (viperLoaded [] []).GetString "ldapbindusername" = "testuser" := by
  decide

/-! ## C9: the request-log output -/

/-- C9: `getHTTPLoggerOut` returns standard error for `stderr` and standard
output for `stdout` without opening a file; for any other name it opens exactly
that path with create, append and write-only (permissions 0644) and returns the
opened file, or, when the open fails, logs the error and exits with status 1
without returning a file. -/
theorem C9_getHTTPLoggerOut (w : World) (filename : String) :
    getHTTPLoggerOut w "stderr" = { trace := [], outcome := .ret .Stderr } ∧
    getHTTPLoggerOut w "stdout" = { trace := [], outcome := .ret .Stdout } ∧
    (filename ≠ "stderr" → filename ≠ "stdout" →
      (∀ fd, w.openFile filename 0x441 0o644 = .ok fd →
        getHTTPLoggerOut w filename =
          { trace := [.openFile filename 0x441 0o644], outcome := .ret fd }) ∧
      (∀ err, w.openFile filename 0x441 0o644 = .error err →
        getHTTPLoggerOut w filename =
          { trace := [.openFile filename 0x441 0o644, .logFatal err], outcome := .exit 1 })) ∧
    O_CREATE ||| O_APPEND ||| O_WRONLY = 0x441 ∧
    (∀ f, (getHTTPLoggerOut w filename).outcome = .ret f →
      (filename = "stderr" ∧ f = .Stderr) ∨ (filename = "stdout" ∧ f = .Stdout) ∨
        w.openFile filename 0x441 0o644 = .ok f) := by
  have hflag : O_CREATE ||| O_APPEND ||| O_WRONLY = 0x441 := by decide
  refine ⟨rfl, rfl, ?_, hflag, ?_⟩
  · intro h1 h2
    constructor
    · intro fd hfd
      simp only [getHTTPLoggerOut, h1, h2, if_false, hflag, hfd]
    · intro err herr
      simp only [getHTTPLoggerOut, h1, h2, if_false, hflag, herr]
  · intro f hf
    by_cases h1 : filename = "stderr"
    · subst h1
      simp only [getHTTPLoggerOut, if_true, Outcome.ret.injEq] at hf
      exact Or.inl ⟨rfl, hf.symm⟩
    · by_cases h2 : filename = "stdout"
      · subst h2
        simp only [getHTTPLoggerOut, Outcome.ret.injEq] at hf
        exact Or.inr (Or.inl ⟨rfl, by simpa using hf.symm⟩)
      · cases hopen : w.openFile filename 0x441 0o644 with
        | error err =>
          simp only [getHTTPLoggerOut, h1, h2, if_false, hflag, hopen] at hf
          cases hf
        | ok fd =>
          simp only [getHTTPLoggerOut, h1, h2, if_false, hflag, hopen, Outcome.ret.injEq] at hf
          subst hf
          exact Or.inr (Or.inr rfl)

/-- C9, at concrete machines: a file that opens and a file that does not. -/
theorem C9_getHTTPLoggerOut_witness :
    getHTTPLoggerOut sampleWorld "/var/log/cboxauthd/http.log" =
      { trace := [.openFile "/var/log/cboxauthd/http.log" 0x441 0o644], outcome := .ret (.opened 3) } ∧
    getHTTPLoggerOut readOnlyWorld "/var/log/cboxauthd/http.log" =
      { trace := [.openFile "/var/log/cboxauthd/http.log" 0x441 0o644, .logFatal "permission denied"],
        outcome := .exit 1 } :=
  ⟨((C9_getHTTPLoggerOut sampleWorld "/var/log/cboxauthd/http.log").2.2.1
      (by decide) (by decide)).1 (.opened 3) rfl,
   ((C9_getHTTPLoggerOut readOnlyWorld "/var/log/cboxauthd/http.log").2.2.1
      (by decide) (by decide)).2 "permission denied" rfl⟩

/-! ## C10: the version flag -/

theorem release_line_ne_dev_line (x : String) : x ++ " release-build\n" ≠ x ++ " dev-build\n" := by
  intro h
  have h1 := congrArg String.data h
  simp only [String.data_append] at h1
  have h2 := List.append_cancel_left h1
  exact absurd h2 (by decide)

/-- C10: when the version flag is set, `main` prints exactly one line and exits
with status 0, with no other effect (no configuration file read, no logger
built, no server started); the line is
`<appName> <gitNearestTag> commit:<gitCommit> release-build` exactly when
`gitTag` is not empty, and the same line ending in `dev-build` otherwise. -/
theorem C10_version_flag (b : BuildInfo) (w : World) (args : List (String × Value))
    (hver : lookupKey "version" args = some (.bool true)) :
    ∃ line, main b w args = { trace := [.printf line], outcome := .exit 0 } ∧
      (line = b.appName ++ " " ++ b.gitNearestTag ++ " commit:" ++ b.gitCommit ++ " release-build\n"
        ↔ b.gitTag ≠ "") ∧
      (line = b.appName ++ " " ++ b.gitNearestTag ++ " commit:" ++ b.gitCommit ++ " dev-build\n"
        ↔ b.gitTag = "") := by
  have hv : (init args).fVersion = true := by
    simp only [init, hver]
  by_cases hg : b.gitTag = ""
  · refine ⟨b.appName ++ " " ++ b.gitNearestTag ++ " commit:" ++ b.gitCommit ++ " dev-build\n", ?_, ?_, ?_⟩
    · simp only [main, hv, if_true, showVersion, hg, ne_eq, not_true_eq_false, if_false]
    · constructor
      · intro h
        exact absurd h.symm (release_line_ne_dev_line _)
      · intro h
        exact absurd hg h
    · exact ⟨fun _ => hg, fun _ => rfl⟩
  · refine ⟨b.appName ++ " " ++ b.gitNearestTag ++ " commit:" ++ b.gitCommit ++ " release-build\n",
      ?_, ?_, ?_⟩
    · simp only [main, hv, if_true, showVersion, hg, ne_eq, not_false_eq_true]
    · exact ⟨fun _ => hg, fun _ => rfl⟩
    · constructor
      · intro h
        exact absurd h (release_line_ne_dev_line _)
      · intro h
        exact absurd h hg

/-- C10, at a release build and with the version flag on the command line. -/
theorem C10_version_flag_witness :
    main { sampleBuild with gitTag := "v1.0.0" } sampleWorld [("version", .bool true)] =
      { trace := [.printf "cboxauthd v1.0.0 commit:abc release-build\n"], outcome := .exit 0 } ∧
    ∃ line, main { sampleBuild with gitTag := "v1.0.0" } sampleWorld [("version", .bool true)] =
        { trace := [.printf line], outcome := .exit 0 } ∧
      (line = "cboxauthd" ++ " " ++ "v1.0.0" ++ " commit:" ++ "abc" ++ " release-build\n"
        ↔ ("v1.0.0" : String) ≠ "") ∧
      (line = "cboxauthd" ++ " " ++ "v1.0.0" ++ " commit:" ++ "abc" ++ " dev-build\n"
        ↔ ("v1.0.0" : String) = "") :=
  ⟨by decide,
   C10_version_flag { sampleBuild with gitTag := "v1.0.0" } sampleWorld [("version", .bool true)] rfl⟩

end Cboxauthd
